import Mathlib

/-!
Verification of the SENATI uniform detector pipeline.

Shallow embedding of `src/backend/src/core/detector.py`,
`src/backend/src/preprocessing/image_processor.py` and
`src/backend/src/api/main.py`.  Machine floats are modelled by exact
rationals; Python exceptions are modelled by `Except`; the external
inference engine (ultralytics YOLO), the PIL verifier and the cv2 pixel
routines are modelled as explicit function parameters, since the
repository treats them as black boxes.
-/

namespace Senati

/-- Python's built-in `round` on an exact value: round half to even
(banker's rounding), as used by `round(confidence, 3)` and
`round(laplacian_var, 2)` in the source. -/
def pyRound (q : ℚ) : ℤ :=
  let f := ⌊q⌋
  let r := q - (f : ℚ)
  if r < 1 / 2 then f
  else if 1 / 2 < r then f + 1
  else if f % 2 = 0 then f else f + 1

/-- Python `round(q, ndigits)`. -/
def round_to (q : ℚ) (ndigits : ℕ) : ℚ :=
  (pyRound (q * 10 ^ ndigits) : ℚ) / 10 ^ ndigits

/-- One raw model box as produced by the engine: `box.xyxy[0]` corner
coordinates, `box.conf[0]` score and `box.cls[0]` class id
(detector.py lines 100-112). -/
structure RawBox where
  x1 : ℚ
  y1 : ℚ
  x2 : ℚ
  y2 : ℚ
  conf : ℚ
  cls : ℕ
  deriving Repr, DecidableEq

/-- One normalized detection record, the dictionary built in
detector.py lines 115-122. -/
structure Detection where
  class_name : String
  class_id : ℕ
  confidence : ℚ
  bbox : ℚ × ℚ × ℚ × ℚ
  bbox_center : ℚ × ℚ
  bbox_size : ℚ × ℚ
  deriving Repr, DecidableEq

/-- The mutable per-session detector configuration
(`self.conf_threshold`, `self.iou_threshold`, detector.py lines 53-54). -/
structure DetectorState where
  conf_threshold : ℚ
  iou_threshold : ℚ
  deriving Repr, DecidableEq

/-- Error taxonomy of the spec; `thresholdOutOfRange` stands for the
`ValueError` raised by `change_confidence_threshold`. -/
inductive DetectorError
  | thresholdOutOfRange
  | modelUnavailable
  | engineFailure (msg : String)
  deriving Repr, DecidableEq

/-- The external inference engine (`self.model.predict`): given the
effective confidence and iou thresholds it yields raw boxes, or fails. -/
abbrev Engine : Type := ℚ → ℚ → Except DetectorError (List RawBox)

/-- detector.py lines 85-86: `if conf is None: conf = self.conf_threshold`.
The confidence actually handed to the engine by `detect_image`. -/
def effective_conf (s : DetectorState) (conf : Option ℚ) : ℚ :=
  conf.getD s.conf_threshold

/-- detector.py lines 100-124: build one detection record from one raw
box: `width = x2 - x1`, `height = y2 - y1`, `x_center = x1 + width / 2`,
`y_center = y1 + height / 2`, confidence rounded to 3 decimals, class id
resolved through the engine's label table `results.names`. -/
def normalize_box (names : ℕ → String) (box : RawBox) : Detection :=
  let width := box.x2 - box.x1
  let height := box.y2 - box.y1
  let x_center := box.x1 + width / 2
  let y_center := box.y1 + height / 2
  { class_name := names box.cls
    class_id := box.cls
    confidence := round_to box.conf 3
    bbox := (box.x1, box.y1, box.x2, box.y2)
    bbox_center := (x_center, y_center)
    bbox_size := (width, height) }

/-- detector.py lines 60-126, `UniformDetector.detect_image`: pick the
effective confidence, call the engine with it and the session iou
threshold, and map every returned box through the normalizer, in order.
The body contains no threshold-range check of any kind; the only failure
paths are the ones the engine itself raises. -/
def detect_image (engine : Engine) (names : ℕ → String) (s : DetectorState)
    (conf : Option ℚ) : Except DetectorError (List Detection) :=
  match engine (effective_conf s conf) s.iou_threshold with
  | .error e => .error e
  | .ok boxes => .ok (boxes.map (normalize_box names))

/-- detector.py lines 292-303, `UniformDetector.change_confidence_threshold`:
`if not 0 <= new_threshold <= 1: raise ValueError(...)`, otherwise
`self.conf_threshold = new_threshold`. -/
def change_confidence_threshold (s : DetectorState) (new_threshold : ℚ) :
    Except DetectorError DetectorState :=
  if ¬ (0 ≤ new_threshold ∧ new_threshold ≤ 1) then
    .error .thresholdOutOfRange
  else
    .ok { s with conf_threshold := new_threshold }

/-! ## image_processor.py -/

/-- A BGR pixel. -/
abbrev Pixel : Type := ℕ × ℕ × ℕ

/-- A decoded frame: height, width and a pixel grid (row, column).
Coordinates are integers so the placement arithmetic of the letterbox
canvas can be mirrored exactly. -/
structure Image where
  h : ℕ
  w : ℕ
  pixel : ℤ → ℤ → Pixel

/-- image_processor.py line 50: `scale = target_size / max(h, w)`. -/
def letterbox_scale (h w target : ℕ) : ℚ :=
  (target : ℚ) / ((max h w : ℕ) : ℚ)

/-- image_processor.py line 51: `new_w = int(w * scale)` — Python `int()`
truncates toward zero, which on this nonnegative value is the floor. -/
def letterbox_new_w (h w target : ℕ) : ℤ :=
  ⌊(w : ℚ) * letterbox_scale h w target⌋

/-- image_processor.py line 52: `new_h = int(h * scale)`. -/
def letterbox_new_h (h w target : ℕ) : ℤ :=
  ⌊(h : ℚ) * letterbox_scale h w target⌋

/-- image_processor.py line 65: `top = (target_size - new_h) // 2`
(Python floor division). -/
def letterbox_top (h w target : ℕ) : ℤ :=
  ((target : ℤ) - letterbox_new_h h w target).fdiv 2

/-- image_processor.py line 66: `left = (target_size - new_w) // 2`. -/
def letterbox_left (h w target : ℕ) : ℤ :=
  ((target : ℤ) - letterbox_new_w h w target).fdiv 2

/-- image_processor.py lines 40-71, `ImageProcessor.resize_maintain_aspect`:
compute the scale and truncated new dimensions, resize the frame with
`cv2.resize` (the external `resize` parameter, called with the new width
and height), fill a `target_size × target_size` canvas with
`padding_color`, and write the resized content at rows
`top .. top+new_h-1`, columns `left .. left+new_w-1`. -/
def resize_maintain_aspect (resize : Image → ℕ → ℕ → Image) (img : Image)
    (target : ℕ) (padding_color : Pixel) : Image :=
  let new_w := letterbox_new_w img.h img.w target
  let new_h := letterbox_new_h img.h img.w target
  let resized := resize img new_w.toNat new_h.toNat
  let top := letterbox_top img.h img.w target
  let left := letterbox_left img.h img.w target
  { h := target
    w := target
    pixel := fun r c =>
      if top ≤ r ∧ r < top + new_h ∧ left ≤ c ∧ c < left + new_w then
        resized.pixel (r - top) (c - left)
      else padding_color }

/-- The quality dictionary returned by `check_image_quality`
(image_processor.py lines 129-137). -/
structure QualityReport where
  sharpness : ℚ
  sharpness_quality : String
  brightness : ℚ
  brightness_quality : String
  contrast : ℚ
  contrast_quality : String
  overall_quality : String
  deriving Repr, DecidableEq

/-- image_processor.py lines 105-137, `ImageProcessor.check_image_quality`,
classification stage: the Laplacian variance, mean brightness and
intensity standard deviation are computed by cv2/numpy on the decoded
grayscale frame (external numerics), and then classified:
`sharpness_quality = "buena" if laplacian_var > 100 else "baja"`,
`brightness_quality = "adecuado" if 50 < brightness < 200 else "inadecuado"`,
`contrast_quality = "bueno" if contrast > 30 else "bajo"`,
`overall_quality = "aceptable" if laplacian_var > 100 and contrast > 30
else "mejorable"`; the reported metric values are rounded to 2 decimals. -/
def check_image_quality (laplacian_var brightness contrast : ℚ) :
    QualityReport :=
  { sharpness := round_to laplacian_var 2
    sharpness_quality := if 100 < laplacian_var then "buena" else "baja"
    brightness := round_to brightness 2
    brightness_quality :=
      if 50 < brightness ∧ brightness < 200 then "adecuado" else "inadecuado"
    contrast := round_to contrast 2
    contrast_quality := if 30 < contrast then "bueno" else "bajo"
    overall_quality :=
      if 100 < laplacian_var ∧ 30 < contrast then "aceptable" else "mejorable" }

/-- A byte buffer. -/
abbrev Bytes : Type := List ℕ

/-- The external PIL structural verifier (`Image.open` followed by
`img.verify()`): succeeds, or raises some exception. -/
abbrev PilVerify : Type := Bytes → Except String Unit

/-- image_processor.py lines 10-17, `ImageProcessor.validate_image`:
run the PIL verifier inside `try`, return `True` on success, and turn
every exception into `False` — the function itself never raises and
always returns a boolean. -/
def validate_image (pil_verify : PilVerify) (file_bytes : Bytes) : Bool :=
  match pil_verify file_bytes with
  | .ok _ => true
  | .error _ => false

/-! ## api/main.py -/

/-- HTTP-level error taxonomy of the endpoints: `modelUnavailable` is
the 503 raised when `detector is None`, `unsupportedMediaType` the 400
for a non-image content type, `invalidImage` the 400 when
`validate_image` fails, `internalError` the 500 wrapping any other
exception's message. -/
inductive ApiError
  | modelUnavailable
  | unsupportedMediaType
  | invalidImage
  | internalError (msg : String)
  deriving Repr, DecidableEq

/-- The part of the filesystem the endpoints touch: the set of existing
temporary files, as a list of paths. -/
structure FS where
  tmp : List String
  deriving Repr, DecidableEq

/-- `open(temp_path, "wb")` + `f.write(contents)`: the file now exists. -/
def fs_write (fs : FS) (p : String) : FS :=
  { tmp := p :: fs.tmp }

/-- `Path(temp_path).unlink(missing_ok=True)`: the file no longer
exists; deleting a missing file is not an error. -/
def fs_unlink (fs : FS) (p : String) : FS :=
  { tmp := fs.tmp.filter (fun q => q ≠ p) }

/-- Whether a path currently exists. -/
def fs_has (fs : FS) (p : String) : Prop :=
  p ∈ fs.tmp

instance (fs : FS) (p : String) : Decidable (fs_has fs p) := by
  unfold fs_has; infer_instance

/-- main.py lines 154, 199 and 237: `temp_path = f"/tmp/{file.filename}"` —
the temporary path is built from the caller-supplied upload filename. -/
def temp_path (filename : String) : String :=
  "/tmp/" ++ filename

/-- The temporary path a given request receives.  `requestId` stands
for the identity of the concurrent request; the endpoints compute the
path from the upload's filename alone, so the request identity does not
enter the computation. -/
def request_temp_path (requestId : ℕ) (filename : String) : String :=
  let _ := requestId
  temp_path filename

/-- JSON body returned by `/api/detect` (main.py lines 165-170). -/
structure DetectResponse where
  filename : String
  confidence_threshold : ℚ
  detections_count : ℕ
  detections : List Detection
  deriving Repr, DecidableEq

/-- main.py lines 130-175, the `/api/detect` handler `detect_uniform`.
`modelLoaded` is `detector is not None`; `contentTypeImage` is
`file.content_type.startswith("image/")`; `validateOk` the result of
`processor.validate_image(contents)`; `detectResult` the outcome of
`detector.detect_image(temp_path, conf=confidence)` (ok, or the raised
exception's message).  Control flow mirrors the source: the guards fire
before any file is written; on the happy path the temp file is written,
detection runs, the temp file is unlinked and the response is built; if
detection raises, the handler re-raises (as a 500) and the `unlink`
statement, which sits after the `detect_image` call with no
`try/finally`, is never reached. -/
def detect_uniform (modelLoaded contentTypeImage validateOk : Bool)
    (detectResult : Except String (List Detection))
    (filename : String) (confidence : ℚ) (fs : FS) :
    Except ApiError DetectResponse × FS :=
  if modelLoaded = false then (.error .modelUnavailable, fs)
  else if contentTypeImage = false then (.error .unsupportedMediaType, fs)
  else if validateOk = false then (.error .invalidImage, fs)
  else
    let p := temp_path filename
    let fs1 := fs_write fs p
    match detectResult with
    | .error msg => (.error (.internalError msg), fs1)
    | .ok dets =>
      let fs2 := fs_unlink fs1 p
      (.ok { filename := filename
             confidence_threshold := confidence
             detections_count := dets.length
             detections := dets }, fs2)

/-- main.py lines 178-222, the `/api/detect/visualize` handler
`detect_and_visualize`.  Guards mirror `detect_uniform`: 503 when the
model is not loaded, 400 on a non-image content type, 400 when
validation fails — all before any file is written.  On the happy path
the temp file is written, `detector.detect_and_draw(temp_path,
conf=confidence)` runs (`drawResult` is its outcome: the annotated
frame, or the raised exception's message), the temp file is unlinked,
and only then `processor.opencv_to_bytes` encodes the frame
(`encodeResult`; its failure becomes a 500 but the file is already
gone).  If `detect_and_draw` raises, the handler re-raises (as a 500)
and the `unlink` statement at line 207, which follows the draw call
with no `try/finally`, is never reached.  `confidence` enters only the
abstracted draw call. -/
def detect_and_visualize (modelLoaded contentTypeImage validateOk : Bool)
    (drawResult : Except String Image)
    (encodeResult : Image → Except String Bytes)
    (filename : String) (confidence : ℚ) (fs : FS) :
    Except ApiError Bytes × FS :=
  let _ := confidence
  if modelLoaded = false then (.error .modelUnavailable, fs)
  else if contentTypeImage = false then (.error .unsupportedMediaType, fs)
  else if validateOk = false then (.error .invalidImage, fs)
  else
    let p := temp_path filename
    let fs1 := fs_write fs p
    match drawResult with
    | .error msg => (.error (.internalError msg), fs1)
    | .ok img =>
      let fs2 := fs_unlink fs1 p
      match encodeResult img with
      | .error msg => (.error (.internalError msg), fs2)
      | .ok img_bytes => (.ok img_bytes, fs2)

/-- JSON body returned by `/api/analyze` (main.py lines 248-257). -/
structure AnalyzeResponse where
  filename : String
  quality_metrics : QualityReport
  recommendation : String
  deriving Repr, DecidableEq

/-- main.py lines 225-262, the `/api/analyze` handler `analyze_image`.
`analysisResult` is the combined outcome of
`processor.get_image_info(temp_path)` and
`processor.check_image_quality(temp_path)` (ok with the quality report,
or the raised exception's message).  As in `detect_uniform`, the temp
file is written after validation and unlinked only on the success path;
an exception during analysis skips the `unlink`. -/
def analyze_image (validateOk : Bool)
    (analysisResult : Except String QualityReport)
    (filename : String) (fs : FS) : Except ApiError AnalyzeResponse × FS :=
  if validateOk = false then (.error .invalidImage, fs)
  else
    let p := temp_path filename
    let fs1 := fs_write fs p
    match analysisResult with
    | .error msg => (.error (.internalError msg), fs1)
    | .ok quality =>
      let fs2 := fs_unlink fs1 p
      (.ok { filename := filename
             quality_metrics := quality
             recommendation :=
               if quality.overall_quality = "aceptable" then
                 "Imagen adecuada para detección"
               else "Considere usar una imagen de mejor calidad" }, fs2)

/-! ## Video sequencing -/

/-- Modelled from the spec: the repository's video endpoint
(`/api/detect/video`, spec §4.7 VideoFrameSequencer) is not among the
source files under `src/`; its per-frame result record
`VideoFrameResult {frame_index ≥ 1, detections}` is taken from spec §3. -/
structure VideoFrameResult where
  frame_index : ℕ
  detections : List Detection
  deriving Repr, DecidableEq

/-- Modelled from the spec: the aggregate
`VideoSummary {frames_processed, total_detections, results}` of spec §3. -/
structure VideoSummary where
  frames_processed : ℕ
  total_detections : ℕ
  results : List VideoFrameResult
  deriving Repr, DecidableEq

/-- Modelled from the spec: spec §4.7 — iterate the (already decoded)
frames sequentially, indices starting at 1, run the single-image
pipeline on each frame and append one `VideoFrameResult` per frame. -/
def frame_results {Frame : Type} (detect : Frame → List Detection) :
    List Frame → ℕ → List VideoFrameResult
  | [], _ => []
  | f :: fs, i => ⟨i, detect f⟩ :: frame_results detect fs (i + 1)

/-- Modelled from the spec: spec §4.7 VideoFrameSequencer on an
already-opened video — produce the per-frame results in temporal order
and aggregate `frames_processed` (count of frames actually iterated)
and `total_detections` (sum of per-frame detection counts). -/
def process_video {Frame : Type} (detect : Frame → List Detection)
    (frames : List Frame) : VideoSummary :=
  let results := frame_results detect frames 1
  { frames_processed := results.length
    total_detections := (results.map (fun r => r.detections.length)).sum
    results := results }

/-! ## Concrete fixtures used by counterexamples and witnesses -/

/-- The label table of the trained model: one class, `uniforme_senati`. -/
def names0 : ℕ → String := fun _ => "uniforme_senati"

/-- The default session configuration of detector.py lines 30-31:
`conf_threshold = 0.25`, `iou_threshold = 0.45`. -/
def s0 : DetectorState := { conf_threshold := 1 / 4, iou_threshold := 9 / 20 }

/-- A sample raw box with score 0.855. -/
def box0 : RawBox := { x1 := 10, y1 := 20, x2 := 30, y2 := 60, conf := 171 / 200, cls := 0 }

/-- An engine that yields `box0` exactly when it is invoked with a
confidence above 1: its output observably separates "invoked with an
out-of-range confidence" from every other behaviour. -/
def engine_gate : Engine := fun c _ => if 1 < c then .ok [box0] else .ok []

/-- An engine that always succeeds with the single box `box0`. -/
def engine_ok : Engine := fun _ _ => .ok [box0]

/-! ## Claim C1 -/

/-- Claim C1 as stated is false.  `detect_image` contains no threshold
check at all: invoked with the out-of-range confidence `3/2` it does not
fail with `ThresholdOutOfRange` — it calls the engine with `3/2` (the
gate engine returns its box only when the received confidence exceeds 1,
and the box is in the output) and returns the normalized result. -/
theorem detect_image_threshold_counterexample :
    detect_image engine_gate names0 s0 (some (3 / 2)) =
      .ok [normalize_box names0 box0] ∧
    detect_image engine_gate names0 s0 (some (3 / 2)) ≠
      .error .thresholdOutOfRange := by
  have h : detect_image engine_gate names0 s0 (some (3 / 2)) =
      .ok [normalize_box names0 box0] := by
    have hc : ((1 : ℚ) < 3 / 2) = True := by norm_num
    simp [detect_image, engine_gate, effective_conf, hc]
  exact ⟨h, by rw [h]; intro hcontra; exact Except.noConfusion hcontra⟩

/-- Claim C1, amended: `detect_image` performs no threshold-range
validation whatsoever.  For every confidence value — inside or outside
`[0,1]` — it never fails with `ThresholdOutOfRange` on its own: any
failure it returns is exactly a failure of the engine invoked with that
very confidence, and whenever the engine succeeds, `detect_image`
succeeds with the engine's normalized output.  (Threshold range checks
exist only at the HTTP boundary, `Query(ge=0.0, le=1.0)` in main.py, and
in `change_confidence_threshold`.) -/
theorem detect_image_no_threshold_validation (engine : Engine)
    (names : ℕ → String) (s : DetectorState) (conf : Option ℚ) :
    (∀ e, detect_image engine names s conf = .error e →
      engine (effective_conf s conf) s.iou_threshold = .error e) ∧
    (∀ boxes, engine (effective_conf s conf) s.iou_threshold = .ok boxes →
      detect_image engine names s conf = .ok (boxes.map (normalize_box names))) := by
  constructor
  · intro e he
    unfold detect_image at he
    cases hcall : engine (effective_conf s conf) s.iou_threshold with
    | error e2 => rw [hcall] at he; simpa using he
    | ok boxes => rw [hcall] at he; simp at he
  · intro boxes hcall
    unfold detect_image
    rw [hcall]

/-- Witness for the amended claim C1 at a concrete out-of-range
confidence: the engine succeeds, hence `detect_image` succeeds with the
normalized boxes and no `ThresholdOutOfRange` is produced. -/
theorem detect_image_no_threshold_validation_witness :
    engine_ok (effective_conf s0 (some (3 / 2))) s0.iou_threshold = .ok [box0] ∧
    detect_image engine_ok names0 s0 (some (3 / 2)) =
      .ok ([box0].map (normalize_box names0)) :=
  ⟨rfl, (detect_image_no_threshold_validation engine_ok names0 s0
    (some (3 / 2))).2 [box0] rfl⟩

/-! ## Claim C3 -/

/-- Claim C3, confirmed: whenever the engine returns the raw box list
`raw`, `detect_image` yields exactly `raw.map normalize_box` — one
output record per raw box, same count, same order (the i-th output is
the normalization of the i-th raw box, with no re-sorting) — and every
output record satisfies `bbox_size = (bbox.x2 - bbox.x1, bbox.y2 -
bbox.y1)`, `bbox_center = (bbox.x1 + size.w / 2, bbox.y1 + size.h / 2)`
exactly, with confidence rounded to 3 decimal places. -/
theorem detect_image_normalization (engine : Engine) (names : ℕ → String)
    (s : DetectorState) (conf : Option ℚ) (raw : List RawBox)
    (hraw : engine (effective_conf s conf) s.iou_threshold = .ok raw) :
    detect_image engine names s conf = .ok (raw.map (normalize_box names)) ∧
    (raw.map (normalize_box names)).length = raw.length ∧
    (∀ i : ℕ, (raw.map (normalize_box names))[i]? =
      (raw[i]?).map (normalize_box names)) ∧
    (∀ i : ℕ, ∀ b : RawBox, ∀ d : Detection,
      raw[i]? = some b → (raw.map (normalize_box names))[i]? = some d →
      d.confidence = round_to b.conf 3 ∧
      d.bbox_size.1 = d.bbox.2.2.1 - d.bbox.1 ∧
      d.bbox_size.2 = d.bbox.2.2.2 - d.bbox.2.1 ∧
      d.bbox_center.1 = d.bbox.1 + d.bbox_size.1 / 2 ∧
      d.bbox_center.2 = d.bbox.2.1 + d.bbox_size.2 / 2) := by
  refine ⟨?_, by simp, ?_, ?_⟩
  · unfold detect_image; rw [hraw]
  · intro i; simp [List.getElem?_map]
  · intro i b d hb hd
    rw [List.getElem?_map, hb] at hd
    have hdb : d = normalize_box names b := by simpa using hd.symm
    subst hdb
    refine ⟨rfl, ?_, ?_, ?_, ?_⟩ <;> simp [normalize_box]

/-- Witness for claim C3 at the one-box engine: the output is exactly
the normalization of `box0`, and its confidence is `box0`'s score
rounded to 3 decimals. -/
theorem detect_image_normalization_witness :
    engine_ok (effective_conf s0 none) s0.iou_threshold = .ok [box0] ∧
    detect_image engine_ok names0 s0 none =
      .ok ([box0].map (normalize_box names0)) ∧
    (normalize_box names0 box0).confidence = round_to box0.conf 3 := by
  have h := detect_image_normalization engine_ok names0 s0 none [box0] rfl
  refine ⟨rfl, h.1, ?_⟩
  have h4 := h.2.2.2 0 box0 (normalize_box names0 box0) (by simp) (by simp)
  exact h4.1

/-! ## Claim C4 -/

/-- Claim C4, confirmed: `change_confidence_threshold` validates
`0 ≤ v ≤ 1`.  In range, it replaces the stored confidence threshold
(leaving the iou threshold alone), and a subsequent `detect_image` call
with no per-call override hands exactly the new value to the engine.
Out of range, it raises (`ThresholdOutOfRange` in the spec's taxonomy)
without touching the session state, so a subsequent `detect_image` call
on that session still hands the prior value to the engine. -/
theorem change_confidence_threshold_spec (s : DetectorState) (v : ℚ) :
    ((0 ≤ v ∧ v ≤ 1) →
      change_confidence_threshold s v = .ok { s with conf_threshold := v } ∧
      effective_conf { s with conf_threshold := v } none = v ∧
      detect_image engine_gate names0 { s with conf_threshold := v } none =
        (if 1 < v then .ok [normalize_box names0 box0] else .ok [])) ∧
    (¬ (0 ≤ v ∧ v ≤ 1) →
      change_confidence_threshold s v = .error .thresholdOutOfRange ∧
      effective_conf s none = s.conf_threshold ∧
      detect_image engine_gate names0 s none =
        (if 1 < s.conf_threshold then .ok [normalize_box names0 box0]
         else .ok [])) := by
  constructor
  · intro hv
    refine ⟨by simp [change_confidence_threshold, hv], rfl, ?_⟩
    by_cases h1 : 1 < v <;>
      simp [detect_image, engine_gate, effective_conf, h1]
  · intro hv
    refine ⟨by simp [change_confidence_threshold, hv], rfl, ?_⟩
    by_cases h1 : 1 < s.conf_threshold <;>
      simp [detect_image, engine_gate, effective_conf, h1]

/-- Witness for claim C4: setting `0.5` succeeds and a subsequent
detect call uses `0.5`; setting `1.5` fails with the range error and a
subsequent detect call still uses the prior `0.25`. -/
theorem change_confidence_threshold_spec_witness :
    ((0 : ℚ) ≤ 1 / 2 ∧ (1 : ℚ) / 2 ≤ 1) ∧
    ¬ ((0 : ℚ) ≤ 3 / 2 ∧ (3 : ℚ) / 2 ≤ 1) ∧
    change_confidence_threshold s0 (1 / 2) =
      .ok { s0 with conf_threshold := 1 / 2 } ∧
    effective_conf { s0 with conf_threshold := (1 : ℚ) / 2 } none = 1 / 2 ∧
    change_confidence_threshold s0 (3 / 2) = .error .thresholdOutOfRange ∧
    effective_conf s0 none = s0.conf_threshold := by
  have hin : (0 : ℚ) ≤ 1 / 2 ∧ (1 : ℚ) / 2 ≤ 1 := by norm_num
  have hout : ¬ ((0 : ℚ) ≤ 3 / 2 ∧ (3 : ℚ) / 2 ≤ 1) := by norm_num
  have h1 := (change_confidence_threshold_spec s0 (1 / 2)).1 hin
  have h2 := (change_confidence_threshold_spec s0 (3 / 2)).2 hout
  exact ⟨hin, hout, h1.1, h1.2.1, h2.1, h2.2.1⟩

/-! ## Letterbox arithmetic lemmas -/

lemma letterbox_new_w_eq (h w target : ℕ) :
    letterbox_new_w h w target =
      ((w * target : ℕ) : ℤ) / ((max h w : ℕ) : ℤ) := by
  unfold letterbox_new_w letterbox_scale
  rw [show (w : ℚ) * ((target : ℚ) / ((max h w : ℕ) : ℚ)) =
      (((w * target : ℕ) : ℤ) : ℚ) / ((max h w : ℕ) : ℚ) by push_cast; ring]
  exact Rat.floor_intCast_div_natCast _ _

lemma letterbox_new_h_eq (h w target : ℕ) :
    letterbox_new_h h w target =
      ((h * target : ℕ) : ℤ) / ((max h w : ℕ) : ℤ) := by
  unfold letterbox_new_h letterbox_scale
  rw [show (h : ℚ) * ((target : ℚ) / ((max h w : ℕ) : ℚ)) =
      (((h * target : ℕ) : ℤ) : ℚ) / ((max h w : ℕ) : ℚ) by push_cast; ring]
  exact Rat.floor_intCast_div_natCast _ _

lemma letterbox_new_h_nonneg (h w target : ℕ) :
    0 ≤ letterbox_new_h h w target := by
  rw [letterbox_new_h_eq]
  exact Int.ediv_nonneg (Int.natCast_nonneg _) (Int.natCast_nonneg _)

lemma letterbox_new_w_nonneg (h w target : ℕ) :
    0 ≤ letterbox_new_w h w target := by
  rw [letterbox_new_w_eq]
  exact Int.ediv_nonneg (Int.natCast_nonneg _) (Int.natCast_nonneg _)

lemma letterbox_new_h_le (h w target : ℕ) (hh : 1 ≤ h) :
    letterbox_new_h h w target ≤ target := by
  have hm : 0 < max h w := lt_of_lt_of_le hh (le_max_left h w)
  rw [letterbox_new_h_eq]
  have : h * target / max h w ≤ target := by
    calc h * target / max h w ≤ max h w * target / max h w :=
          Nat.div_le_div_right (Nat.mul_le_mul_right _ (le_max_left h w))
    _ = target := Nat.mul_div_cancel_left _ hm
  exact_mod_cast this

lemma letterbox_new_w_le (h w target : ℕ) (hw : 1 ≤ w) :
    letterbox_new_w h w target ≤ target := by
  have hm : 0 < max h w := lt_of_lt_of_le hw (le_max_right h w)
  rw [letterbox_new_w_eq]
  have : w * target / max h w ≤ target := by
    calc w * target / max h w ≤ max h w * target / max h w :=
          Nat.div_le_div_right (Nat.mul_le_mul_right _ (le_max_right h w))
    _ = target := Nat.mul_div_cancel_left _ hm
  exact_mod_cast this

lemma letterbox_top_nonneg (h w target : ℕ) (hh : 1 ≤ h) :
    0 ≤ letterbox_top h w target := by
  unfold letterbox_top
  rw [Int.fdiv_eq_ediv _ (by norm_num)]
  refine Int.ediv_nonneg ?_ (by norm_num)
  have := letterbox_new_h_le h w target hh
  omega

lemma letterbox_left_nonneg (h w target : ℕ) (hw : 1 ≤ w) :
    0 ≤ letterbox_left h w target := by
  unfold letterbox_left
  rw [Int.fdiv_eq_ediv _ (by norm_num)]
  refine Int.ediv_nonneg ?_ (by norm_num)
  have := letterbox_new_w_le h w target hw
  omega

lemma letterbox_top_add_le (h w target : ℕ) (hh : 1 ≤ h) :
    letterbox_top h w target + letterbox_new_h h w target ≤ target := by
  unfold letterbox_top
  rw [Int.fdiv_eq_ediv _ (by norm_num)]
  have h1 : (0 : ℤ) ≤ (target : ℤ) - letterbox_new_h h w target := by
    have := letterbox_new_h_le h w target hh
    omega
  have h2 := Int.ediv_le_self 2 h1
  omega

lemma letterbox_left_add_le (h w target : ℕ) (hw : 1 ≤ w) :
    letterbox_left h w target + letterbox_new_w h w target ≤ target := by
  unfold letterbox_left
  rw [Int.fdiv_eq_ediv _ (by norm_num)]
  have h1 : (0 : ℤ) ≤ (target : ℤ) - letterbox_new_w h w target := by
    have := letterbox_new_w_le h w target hw
    omega
  have h2 := Int.ediv_le_self 2 h1
  omega

/-! ## Claim C2 -/

/-- Claim C2 is false as stated: the new dimensions are computed with
Python `int()`, which truncates, not with `round`.  For a 5×9 frame and
target 640 the code yields `new_h = int(5 * 640/9) = ⌊355.55…⌋ = 355`,
while `round(5 × scale) = 356`. -/
theorem letterbox_round_counterexample :
    letterbox_new_h 5 9 640 = 355 ∧
    round ((5 : ℚ) * letterbox_scale 5 9 640) = 356 ∧
    letterbox_new_h 5 9 640 ≠ round ((5 : ℚ) * letterbox_scale 5 9 640) := by
  have h1 : letterbox_new_h 5 9 640 = 355 := by
    norm_num [letterbox_new_h, letterbox_scale]
  have h2 : round ((5 : ℚ) * letterbox_scale 5 9 640) = 356 := by
    rw [round_eq]
    norm_num [letterbox_scale]
  exact ⟨h1, h2, by rw [h1, h2]; decide⟩

/-- Claim C2, amended: for every frame with positive height and width
and positive target size, `resize_maintain_aspect` returns an exactly
`target × target` canvas; the scale is `target / max(h, w)`; the new
dimensions are the TRUNCATION `int(original × scale)` (the floor,
equivalently the integer quotient `original·target / max(h,w)`) — not
`round` as claimed; the content is placed at
`top = (target - new_h) // 2`, `left = (target - new_w) // 2` with
integer floor division; every canvas cell outside the content region
holds `pad_color`, and every cell inside it holds the corresponding
pixel of the content resized to `new_w × new_h`. -/
theorem resize_maintain_aspect_spec (resize : Image → ℕ → ℕ → Image)
    (img : Image) (target : ℕ) (pad : Pixel)
    (hh : 1 ≤ img.h) (hw : 1 ≤ img.w) (ht : 1 ≤ target) :
    (resize_maintain_aspect resize img target pad).h = target ∧
    (resize_maintain_aspect resize img target pad).w = target ∧
    letterbox_scale img.h img.w target =
      (target : ℚ) / ((max img.h img.w : ℕ) : ℚ) ∧
    letterbox_new_w img.h img.w target =
      ⌊(img.w : ℚ) * letterbox_scale img.h img.w target⌋ ∧
    letterbox_new_h img.h img.w target =
      ⌊(img.h : ℚ) * letterbox_scale img.h img.w target⌋ ∧
    letterbox_new_w img.h img.w target =
      ((img.w * target : ℕ) : ℤ) / ((max img.h img.w : ℕ) : ℤ) ∧
    letterbox_new_h img.h img.w target =
      ((img.h * target : ℕ) : ℤ) / ((max img.h img.w : ℕ) : ℤ) ∧
    letterbox_top img.h img.w target =
      ((target : ℤ) - letterbox_new_h img.h img.w target).fdiv 2 ∧
    letterbox_left img.h img.w target =
      ((target : ℤ) - letterbox_new_w img.h img.w target).fdiv 2 ∧
    (∀ r c : ℤ,
      ¬ (letterbox_top img.h img.w target ≤ r ∧
         r < letterbox_top img.h img.w target +
           letterbox_new_h img.h img.w target ∧
         letterbox_left img.h img.w target ≤ c ∧
         c < letterbox_left img.h img.w target +
           letterbox_new_w img.h img.w target) →
      (resize_maintain_aspect resize img target pad).pixel r c = pad) ∧
    (∀ r c : ℤ,
      (letterbox_top img.h img.w target ≤ r ∧
       r < letterbox_top img.h img.w target +
         letterbox_new_h img.h img.w target ∧
       letterbox_left img.h img.w target ≤ c ∧
       c < letterbox_left img.h img.w target +
         letterbox_new_w img.h img.w target) →
      (resize_maintain_aspect resize img target pad).pixel r c =
        (resize img (letterbox_new_w img.h img.w target).toNat
          (letterbox_new_h img.h img.w target).toNat).pixel
          (r - letterbox_top img.h img.w target)
          (c - letterbox_left img.h img.w target)) := by
  refine ⟨rfl, rfl, rfl, rfl, rfl, letterbox_new_w_eq _ _ _,
    letterbox_new_h_eq _ _ _, rfl, rfl, ?_, ?_⟩
  · intro r c hcon
    simp only [resize_maintain_aspect]
    rw [if_neg hcon]
  · intro r c hcon
    simp only [resize_maintain_aspect]
    rw [if_pos hcon]

/-- A concrete 2×3 frame for witnesses. -/
def img0 : Image := { h := 2, w := 3, pixel := fun _ _ => (1, 2, 3) }

/-- The default padding color (114, 114, 114). -/
def pad0 : Pixel := (114, 114, 114)

/-- A concrete stand-in for `cv2.resize`: returns a frame of the
requested dimensions whose pixels are all (9, 9, 9). -/
def resize0 : Image → ℕ → ℕ → Image :=
  fun _ nw nh => { h := nh, w := nw, pixel := fun _ _ => (9, 9, 9) }

/-- Witness for the amended claim C2 on the 2×3 frame letterboxed to
10×10: `new_w = 10`, `new_h = 6`, `top = 2`, `left = 0`; the cell (0,0)
lies in the padding and holds the pad color, the cell (2,0) lies in the
content region and holds the resized content's pixel. -/
theorem resize_maintain_aspect_spec_witness :
    (1 ≤ img0.h ∧ 1 ≤ img0.w ∧ (1 : ℕ) ≤ 10) ∧
    (resize_maintain_aspect resize0 img0 10 pad0).h = 10 ∧
    (resize_maintain_aspect resize0 img0 10 pad0).w = 10 ∧
    (resize_maintain_aspect resize0 img0 10 pad0).pixel 0 0 = pad0 ∧
    (resize_maintain_aspect resize0 img0 10 pad0).pixel 2 0 = (9, 9, 9) := by
  obtain ⟨h1, h2, -, -, -, -, -, -, -, hpad, hcontent⟩ :=
    resize_maintain_aspect_spec resize0 img0 10 pad0
      (by norm_num [img0]) (by norm_num [img0]) (by norm_num)
  have hnh : letterbox_new_h img0.h img0.w 10 = 6 := by
    norm_num [letterbox_new_h, letterbox_scale, img0]
  have hnw : letterbox_new_w img0.h img0.w 10 = 10 := by
    norm_num [letterbox_new_w, letterbox_scale, img0]
  have htop : letterbox_top img0.h img0.w 10 = 2 := by
    unfold letterbox_top
    rw [hnh]
    decide
  have hleft : letterbox_left img0.h img0.w 10 = 0 := by
    unfold letterbox_left
    rw [hnw]
    decide
  refine ⟨by norm_num [img0], h1, h2, ?_, ?_⟩
  · apply hpad
    rw [htop, hleft, hnh, hnw]
    intro hcon
    omega
  · have hc := hcontent 2 0 (by rw [htop, hleft, hnh, hnw]; norm_num)
    rw [hc]
    simp [resize0]

/-! ## Claim C10 -/

/-- Claim C10, confirmed: for a frame with height ≥ 1, width ≥ 1 and
target size ≥ 1 the letterbox placement satisfies `0 ≤ top`, `0 ≤ left`,
`top + new_h ≤ target` and `left + new_w ≤ target` (with the new
dimensions themselves nonnegative), so writing the resized content into
`canvas[top : top+new_h, left : left+new_w]` never leaves the
`target × target` canvas. -/
theorem letterbox_placement_in_bounds (h w target : ℕ)
    (hh : 1 ≤ h) (hw : 1 ≤ w) (ht : 1 ≤ target) :
    0 ≤ letterbox_new_h h w target ∧ 0 ≤ letterbox_new_w h w target ∧
    0 ≤ letterbox_top h w target ∧ 0 ≤ letterbox_left h w target ∧
    letterbox_top h w target + letterbox_new_h h w target ≤ target ∧
    letterbox_left h w target + letterbox_new_w h w target ≤ target :=
  ⟨letterbox_new_h_nonneg h w target, letterbox_new_w_nonneg h w target,
   letterbox_top_nonneg h w target hh, letterbox_left_nonneg h w target hw,
   letterbox_top_add_le h w target hh, letterbox_left_add_le h w target hw⟩

/-- Witness for claim C10 at a 3×7 frame letterboxed to 640. -/
theorem letterbox_placement_in_bounds_witness :
    ((1 : ℕ) ≤ 3 ∧ (1 : ℕ) ≤ 7 ∧ (1 : ℕ) ≤ 640) ∧
    (0 ≤ letterbox_new_h 3 7 640 ∧ 0 ≤ letterbox_new_w 3 7 640 ∧
     0 ≤ letterbox_top 3 7 640 ∧ 0 ≤ letterbox_left 3 7 640 ∧
     letterbox_top 3 7 640 + letterbox_new_h 3 7 640 ≤ 640 ∧
     letterbox_left 3 7 640 + letterbox_new_w 3 7 640 ≤ 640) :=
  ⟨by norm_num,
   letterbox_placement_in_bounds 3 7 640 (by norm_num) (by norm_num)
     (by norm_num)⟩

/-! ## Claim C5 -/

/-- Claim C5, confirmed: the overall verdict is `aceptable` if and only
if sharpness (Laplacian variance) exceeds 100 AND contrast exceeds 30;
the brightness value does not enter the overall verdict at all (any two
brightness values give the same overall verdict, so a frame with
brightness outside (50, 200) but high sharpness and contrast still
reports `aceptable` while its brightness_quality is `inadecuado`); the
individual classifications follow the stated thresholds exactly. -/
theorem check_image_quality_classification (lv b c : ℚ) :
    ((check_image_quality lv b c).overall_quality = "aceptable" ↔
      100 < lv ∧ 30 < c) ∧
    (∀ b2 : ℚ, (check_image_quality lv b c).overall_quality =
      (check_image_quality lv b2 c).overall_quality) ∧
    ((check_image_quality lv b c).sharpness_quality = "buena" ↔ 100 < lv) ∧
    ((check_image_quality lv b c).brightness_quality = "adecuado" ↔
      50 < b ∧ b < 200) ∧
    ((check_image_quality lv b c).contrast_quality = "bueno" ↔ 30 < c) ∧
    ((check_image_quality lv b c).overall_quality = "aceptable" ∨
     (check_image_quality lv b c).overall_quality = "mejorable") := by
  refine ⟨?_, fun b2 => rfl, ?_, ?_, ?_, ?_⟩
  · by_cases h : 100 < lv ∧ 30 < c <;> simp [check_image_quality, h]
  · by_cases h : 100 < lv <;> simp [check_image_quality, h]
  · by_cases h : 50 < b ∧ b < 200 <;> simp [check_image_quality, h]
  · by_cases h : 30 < c <;> simp [check_image_quality, h]
  · by_cases h : 100 < lv ∧ 30 < c <;> simp [check_image_quality, h]

/-! ## Claim C6 -/

/-- Claim C6, confirmed: `validate_image` is a total boolean function —
the `try/except Exception` around the PIL verifier converts every
verifier exception into `False` and every success into `True`, so the
function itself never raises.  In particular it returns `false` on an
empty buffer, on a truncated/noise buffer, or on any other input the
verifier rejects, and `true` on every buffer the verifier accepts. -/
theorem validate_image_spec (pv : PilVerify) (empty_buf noise_buf good_buf : Bytes)
    (h1 : ∃ e, pv empty_buf = .error e) (h2 : ∃ e, pv noise_buf = .error e)
    (h3 : pv good_buf = .ok ()) :
    validate_image pv empty_buf = false ∧
    validate_image pv noise_buf = false ∧
    validate_image pv good_buf = true ∧
    (∀ bs : Bytes, validate_image pv bs = true ∨ validate_image pv bs = false) := by
  obtain ⟨e1, he1⟩ := h1
  obtain ⟨e2, he2⟩ := h2
  refine ⟨?_, ?_, ?_, fun bs => ?_⟩
  · simp [validate_image, he1]
  · simp [validate_image, he2]
  · simp [validate_image, h3]
  · unfold validate_image
    cases pv bs <;> simp

/-- A concrete stand-in for the PIL verifier: rejects the empty buffer
and buffers shorter than a header, accepts longer ones. -/
def pil0 : PilVerify := fun bs =>
  if bs.length = 0 then .error "cannot identify image file"
  else if bs.length < 8 then .error "truncated header"
  else .ok ()

/-- The empty upload. -/
def bytes_empty : Bytes := []

/-- Three bytes of noise (a truncated header). -/
def bytes_noise : Bytes := [255, 216, 7]

/-- A well-formed 8-byte buffer (the PNG signature). -/
def bytes_good : Bytes := [137, 80, 78, 71, 13, 10, 26, 10]

/-- Witness for claim C6 on the concrete verifier: false on the empty
buffer and on noise, true on the well-formed buffer. -/
theorem validate_image_spec_witness :
    (∃ e, pil0 bytes_empty = .error e) ∧
    (∃ e, pil0 bytes_noise = .error e) ∧
    pil0 bytes_good = .ok () ∧
    validate_image pil0 bytes_empty = false ∧
    validate_image pil0 bytes_noise = false ∧
    validate_image pil0 bytes_good = true := by
  have h := validate_image_spec pil0 bytes_empty bytes_noise bytes_good
    ⟨"cannot identify image file", rfl⟩ ⟨"truncated header", rfl⟩ rfl
  exact ⟨⟨"cannot identify image file", rfl⟩, ⟨"truncated header", rfl⟩, rfl,
    h.1, h.2.1, h.2.2.1⟩

/-! ## Claim C7 -/

/-- Claim C7 is false as stated: when detection raises, the handler
propagates the error as a 500 and the `unlink` statement — which sits
after the `detect_image` call with no `try/finally` — never runs, so the
temporary file survives the request.  Concretely: a validated request
for `photo.jpg` on an empty `/tmp` whose detection fails leaves
`/tmp/photo.jpg` in existence after the request completes with the
internal error. -/
theorem temp_file_leak_counterexample :
    (detect_uniform true true true (.error "inference crashed") "photo.jpg"
      (1 / 4) ⟨[]⟩).1 = .error (.internalError "inference crashed") ∧
    fs_has (detect_uniform true true true (.error "inference crashed")
      "photo.jpg" (1 / 4) ⟨[]⟩).2 (temp_path "photo.jpg") := by
  constructor
  · rfl
  · simp [detect_uniform, fs_has, fs_write]

/-- Claim C7, amended: the temporary file is released on the success
path of the `/api/detect`, `/api/detect/visualize` and `/api/analyze`
handlers (for visualize, the release precedes the encode step, so the
file is gone whatever the encoder does), and no file is created at all
when validation fails; but on the exception path — when detection,
drawing or analysis raises after the file was written — the file is NOT
released and survives the request. -/
theorem temp_file_release_on_paths (filename : String) (confidence : ℚ)
    (fs : FS) (dets : List Detection) (emsg : String)
    (quality : QualityReport) (amsg : String) (img : Image)
    (enc : Image → Except String Bytes) (vmsg : String) :
    ¬ fs_has (detect_uniform true true true (.ok dets) filename confidence
        fs).2 (temp_path filename) ∧
    fs_has (detect_uniform true true true (.error emsg) filename confidence
        fs).2 (temp_path filename) ∧
    ¬ fs_has (detect_and_visualize true true true (.ok img) enc filename
        confidence fs).2 (temp_path filename) ∧
    fs_has (detect_and_visualize true true true (.error vmsg) enc filename
        confidence fs).2 (temp_path filename) ∧
    ¬ fs_has (analyze_image true (.ok quality) filename fs).2
        (temp_path filename) ∧
    fs_has (analyze_image true (.error amsg) filename fs).2
        (temp_path filename) ∧
    (detect_uniform true true false (.ok dets) filename confidence fs).2 = fs ∧
    (detect_and_visualize true true false (.ok img) enc filename confidence
        fs).2 = fs ∧
    (analyze_image false (.ok quality) filename fs).2 = fs := by
  refine ⟨?_, ?_, ?_, ?_, ?_, ?_, rfl, rfl, rfl⟩
  · simp [detect_uniform, fs_has, fs_unlink, fs_write, List.mem_filter]
  · simp [detect_uniform, fs_has, fs_write]
  · cases henc : enc img <;>
      simp [detect_and_visualize, henc, fs_has, fs_unlink, fs_write,
        List.mem_filter]
  · simp [detect_and_visualize, fs_has, fs_write]
  · simp [analyze_image, fs_has, fs_unlink, fs_write, List.mem_filter]
  · simp [analyze_image, fs_has, fs_write]

/-! ## Claim C8 -/

/-- Claim C8 is false as stated: the temporary path is derived from the
caller-supplied filename, not from a generated identifier, so two
DISTINCT requests uploading files with the same name receive the very
same path `/tmp/same.jpg` — they do collide. -/
theorem temp_path_collision_counterexample :
    (0 : ℕ) ≠ 1 ∧
    request_temp_path 0 "same.jpg" = request_temp_path 1 "same.jpg" ∧
    request_temp_path 0 "same.jpg" = "/tmp/same.jpg" :=
  ⟨by decide, rfl, rfl⟩

/-- Claim C8, amended: every request's temporary path is exactly
`"/tmp/" ++ filename`, a function of the caller-supplied filename
alone — the request identity never enters it — so any two requests with
equal filenames are assigned equal (colliding) paths. -/
theorem temp_path_from_filename_only (r1 r2 : ℕ) (filename : String) :
    request_temp_path r1 filename = "/tmp/" ++ filename ∧
    request_temp_path r1 filename = request_temp_path r2 filename :=
  ⟨rfl, rfl⟩

/-! ## Claim C9 -/

lemma frame_results_length {Frame : Type} (detect : Frame → List Detection) :
    ∀ (frames : List Frame) (i : ℕ),
      (frame_results detect frames i).length = frames.length
  | [], _ => by simp [frame_results]
  | f :: fs, i => by
      simp [frame_results, frame_results_length detect fs (i + 1)]

lemma frame_results_get {Frame : Type} (detect : Frame → List Detection) :
    ∀ (frames : List Frame) (i j : ℕ),
      (frame_results detect frames i)[j]? =
        (frames[j]?).map (fun f => ⟨i + j, detect f⟩)
  | [], _, _ => by simp [frame_results]
  | f :: fs, i, 0 => by simp [frame_results]
  | f :: fs, i, j + 1 => by
      rw [show i + (j + 1) = i + 1 + j by omega]
      simpa [frame_results] using frame_results_get detect fs (i + 1) j

lemma frame_results_sum {Frame : Type} (detect : Frame → List Detection) :
    ∀ (frames : List Frame) (i : ℕ),
      ((frame_results detect frames i).map
        (fun r => r.detections.length)).sum =
        (frames.map (fun f => (detect f).length)).sum
  | [], _ => rfl
  | f :: fs, i => by
      simp [frame_results, frame_results_sum detect fs (i + 1)]

lemma frame_results_detections {Frame : Type}
    (detect : Frame → List Detection) :
    ∀ (frames : List Frame) (i : ℕ) (r : VideoFrameResult),
      r ∈ frame_results detect frames i → ∃ f ∈ frames, r.detections = detect f
  | [], _, _ => by simp [frame_results]
  | f :: fs, i, r => by
      intro hr
      simp only [frame_results, List.mem_cons] at hr
      rcases hr with h | h
      · exact ⟨f, by simp, by rw [h]⟩
      · obtain ⟨g, hg, he⟩ := frame_results_detections detect fs (i + 1) r h
        exact ⟨g, by simp [hg], he⟩

/-- Claim C9, confirmed against the spec model: the video pipeline
yields one `VideoFrameResult` per frame in temporal order with indices
starting at 1; `frames_processed` equals the count of frames actually
iterated and `total_detections` equals the sum of the per-frame
detection counts; when every frame yields zero detections the summary
reports `total_detections = 0` and every result entry has an empty
detection list. -/
theorem process_video_summary {Frame : Type}
    (detect : Frame → List Detection) (frames : List Frame) :
    (process_video detect frames).frames_processed = frames.length ∧
    (process_video detect frames).total_detections =
      (frames.map (fun f => (detect f).length)).sum ∧
    (process_video detect frames).results.length = frames.length ∧
    (∀ j : ℕ, ((process_video detect frames).results[j]?).map
      (fun r => r.frame_index) = (frames[j]?).map (fun _ => j + 1)) ∧
    ((∀ f ∈ frames, detect f = []) →
      (process_video detect frames).total_detections = 0 ∧
      ∀ r ∈ (process_video detect frames).results, r.detections = []) := by
  refine ⟨?_, ?_, ?_, ?_, ?_⟩
  · simp [process_video, frame_results_length]
  · simp [process_video, frame_results_sum]
  · simp [process_video, frame_results_length]
  · intro j
    simp only [process_video, frame_results_get]
    cases frames[j]? <;> simp [Nat.add_comm]
  · intro hz
    constructor
    · have hsum : (process_video detect frames).total_detections =
        (frames.map (fun f => (detect f).length)).sum := by
        simp [process_video, frame_results_sum]
      rw [hsum]
      refine List.sum_eq_zero ?_
      intro x hx
      obtain ⟨f, hf, hfx⟩ := List.mem_map.mp hx
      rw [← hfx, hz f hf]
      rfl
    · intro r hr
      have hmem : r ∈ frame_results detect frames 1 := hr
      obtain ⟨f, hf, he⟩ := frame_results_detections detect frames 1 r hmem
      rw [he, hz f hf]

/-- Ten synthetic frames. -/
def frames10 : List ℕ := List.replicate 10 0

/-- Witness for claim C9: a 10-frame video with zero detections on every
frame yields `frames_processed = 10`, `total_detections = 0` and 10
result entries. -/
theorem process_video_summary_witness :
    (∀ f ∈ frames10, (fun _ : ℕ => ([] : List Detection)) f = []) ∧
    (process_video (fun _ : ℕ => ([] : List Detection))
      frames10).frames_processed = 10 ∧
    (process_video (fun _ : ℕ => ([] : List Detection))
      frames10).total_detections = 0 ∧
    (process_video (fun _ : ℕ => ([] : List Detection))
      frames10).results.length = 10 := by
  have h := process_video_summary (fun _ : ℕ => ([] : List Detection)) frames10
  have hlen : frames10.length = 10 := by simp [frames10]
  refine ⟨fun f _ => rfl, ?_, (h.2.2.2.2 (fun f _ => rfl)).1, ?_⟩
  · rw [h.1, hlen]
  · rw [h.2.2.1, hlen]

end Senati
